import Mathlib

/-!
Shallow embedding of the cannon-simulator core (src/main.cpp).

The physics core consists of `Projectile::update` (gravity integration,
position integration, time accumulation, ground bounce, wall bounce),
the per-frame loop over active projectiles, the erase-remove prune pass,
the input clamping of cannon angle and power, and `fireProjectile`.

Machine `float` arithmetic is modelled as exact arithmetic in a linear
ordered field (instantiated at `ℚ` for executable checks and at `ℝ` where
trigonometry is needed).  The source comparison
`glm::length(velocity) < 1.0f` is a comparison of a nonneg square root
with 1, which is equivalent to comparing the squared length with 1; the
embedding uses the squared form so the test stays inside the field.
-/

namespace Canonz

variable {α : Type} [LinearOrderedField α]

/-- Two-dimensional vector, modelling `glm::vec2`. -/
structure Vec2 (α : Type) where
  x : α
  y : α
  deriving DecidableEq, Repr

/-- Modelling `const float GRAVITY = 9.81f;` (line 14). -/
def GRAVITY : α := 981 / 100

/-- Modelling `const int WINDOW_WIDTH = 800;` (line 12). -/
def WINDOW_WIDTH : α := 800

/-- Modelling `const float PI = 3.14159265359f;` (line 15): the source
uses this literal constant, not the exact mathematical pi. -/
def PI : α := 314159265359 / 100000000000

/-- The `Projectile` class fields (lines 23-29). -/
structure Projectile (α : Type) where
  position : Vec2 α
  velocity : Vec2 α
  radius : α
  active : Bool
  timeAlive : α
  deriving DecidableEq, Repr

/-- The `Projectile` constructor (lines 31-32): `active` starts `true`,
`timeAlive` starts `0`. -/
def Projectile.create (pos vel : Vec2 α) (r : α) : Projectile α :=
  { position := pos, velocity := vel, radius := r, active := true, timeAlive := 0 }

/-- `Projectile::update(float deltaTime)` (lines 34-62), translated
statement by statement. -/
def Projectile.update (dt : α) (p : Projectile α) : Projectile α :=
  -- velocity.y -= GRAVITY * deltaTime;
  let velocity : Vec2 α := ⟨p.velocity.x, p.velocity.y - GRAVITY * dt⟩
  -- position += velocity * deltaTime;
  let position : Vec2 α := ⟨p.position.x + velocity.x * dt, p.position.y + velocity.y * dt⟩
  -- timeAlive += deltaTime;
  let timeAlive := p.timeAlive + dt
  -- if (position.y <= radius) { ... }
  let s1 : Projectile α :=
    if position.y ≤ p.radius then
      -- position.y = radius;
      let position : Vec2 α := ⟨position.x, p.radius⟩
      -- velocity *= 0.5f;
      let velocity : Vec2 α := ⟨velocity.x * (1 / 2), velocity.y * (1 / 2)⟩
      -- if (glm::length(velocity) < 1.0f) { active = false; }
      if velocity.x ^ 2 + velocity.y ^ 2 < 1 then
        { position := position, velocity := velocity, radius := p.radius,
          active := false, timeAlive := timeAlive }
      else
        -- velocity.y = -velocity.y * 0.7f;
        { position := position, velocity := ⟨velocity.x, -velocity.y * (7 / 10)⟩,
          radius := p.radius, active := p.active, timeAlive := timeAlive }
    else
      { position := position, velocity := velocity, radius := p.radius,
        active := p.active, timeAlive := timeAlive }
  -- if (position.x >= WINDOW_WIDTH - radius) { ... }
  if s1.position.x ≥ WINDOW_WIDTH - s1.radius then
    { s1 with position := ⟨WINDOW_WIDTH - s1.radius, s1.position.y⟩,
              -- velocity.x *= -0.7f;
              velocity := ⟨s1.velocity.x * (-(7 / 10)), s1.velocity.y⟩ }
  else s1

/-- The integration phase of `update` (lines 36-42): gravity, then
position using the post-gravity velocity, then time accumulation. -/
def Projectile.integrate (dt : α) (p : Projectile α) : Projectile α :=
  let velocity : Vec2 α := ⟨p.velocity.x, p.velocity.y - GRAVITY * dt⟩
  { p with velocity := velocity,
           position := ⟨p.position.x + velocity.x * dt, p.position.y + velocity.y * dt⟩,
           timeAlive := p.timeAlive + dt }

/-- The ground-collision phase of `update` (lines 45-55). -/
def Projectile.groundCollide (p : Projectile α) : Projectile α :=
  if p.position.y ≤ p.radius then
    let v : Vec2 α := ⟨p.velocity.x * (1 / 2), p.velocity.y * (1 / 2)⟩
    if v.x ^ 2 + v.y ^ 2 < 1 then
      { p with position := ⟨p.position.x, p.radius⟩, velocity := v, active := false }
    else
      { p with position := ⟨p.position.x, p.radius⟩, velocity := ⟨v.x, -v.y * (7 / 10)⟩ }
  else p

/-- The wall-collision phase of `update` (lines 58-61). -/
def Projectile.wallCollide (p : Projectile α) : Projectile α :=
  if p.position.x ≥ WINDOW_WIDTH - p.radius then
    { p with position := ⟨WINDOW_WIDTH - p.radius, p.position.y⟩,
             velocity := ⟨p.velocity.x * (-(7 / 10)), p.velocity.y⟩ }
  else p

/-- The per-frame update loop (lines 141-145): only projectiles with
`active == true` are updated. -/
def stepAll (dt : α) (ps : List (Projectile α)) : List (Projectile α) :=
  ps.map fun p => if p.active then p.update dt else p

/-- The erase-remove prune pass (lines 148-152): removes every projectile
satisfying `!p.active || p.timeAlive > 10.0f`. -/
def prune (ps : List (Projectile α)) : List (Projectile α) :=
  ps.filter fun p => !(!p.active || decide (p.timeAlive > 10))

/-- The mutable cannon aim state (lines 18-19). -/
structure AimState (α : Type) where
  cannonAngle : α
  cannonPower : α
  deriving DecidableEq, Repr

/-- Initial values `cannonAngle = 45.0f`, `cannonPower = 50.0f`. -/
def initialAim : AimState α := ⟨45, 50⟩

/-- The four directional adjust inputs consumed by `processInput`. -/
inductive InputKey : Type
  | up : InputKey
  | down : InputKey
  | right : InputKey
  | left : InputKey

/-- One branch of `processInput` (lines 197-213): each held key adjusts
angle or power by 1, clamped with `std::min` / `std::max`. -/
def processKey (s : AimState α) : InputKey → AimState α
  | .up => { s with cannonAngle := min (s.cannonAngle + 1) 90 }
  | .down => { s with cannonAngle := max (s.cannonAngle - 1) 0 }
  | .right => { s with cannonPower := min (s.cannonPower + 1) 100 }
  | .left => { s with cannonPower := max (s.cannonPower - 1) 10 }

/-- A sequence of adjust inputs applied in order. -/
def processInputs (s : AimState α) (ks : List InputKey) : AimState α :=
  ks.foldl processKey s

/-- Modelling `glm::vec2 cannonPosition(50.0f, 50.0f);` (line 20). -/
def cannonPosition : Vec2 ℝ := ⟨50, 50⟩

/-- `fireProjectile()` (lines 269-286) as a pure function of the aim
state: computes the initial velocity and barrel-end spawn position from
the angle (degrees, converted with the source constant `PI`) and power,
and returns the new projectile built by the constructor with radius 5. -/
noncomputable def fireProjectile (s : AimState ℝ) : Projectile ℝ :=
  let radianAngle : ℝ := s.cannonAngle * PI / 180
  let initialVelocity : Vec2 ℝ :=
    ⟨s.cannonPower * Real.cos radianAngle, s.cannonPower * Real.sin radianAngle⟩
  let barrelEnd : Vec2 ℝ :=
    ⟨cannonPosition.x + 40 * Real.cos radianAngle,
     cannonPosition.y + 40 * Real.sin radianAngle⟩
  Projectile.create barrelEnd initialVelocity 5

/-! ## Concrete inputs used by witnesses and counterexamples -/

/-- A projectile in ground contact with post-damping speed above the
settle threshold (used to exercise the bounce branch). -/
def qGround : Projectile ℚ := Projectile.create ⟨10, 3⟩ ⟨10, -20⟩ 5

/-- A projectile beyond the wall boundary (the spec scenario
`position.x = boundaryWidth - radius + 1` with positive x velocity). -/
def qWall : Projectile ℚ := Projectile.create ⟨796, 100⟩ ⟨30, 0⟩ 5

/-! ## Claims -/

/-- C1: for every projectile and every deltaTime, `update` applies, in
order: the gravity change `velocity.y -= GRAVITY * dt`, then the position
change using the post-gravity velocity (semi-implicit Euler), then
`timeAlive += dt`, all before the ground and wall collision handling; and
the per-frame loop applies `update` exactly to the active projectiles. -/
theorem step_integration_order (dt : ℚ) (p : Projectile ℚ) (ps : List (Projectile ℚ)) :
    stepAll dt ps = ps.map (fun q => if q.active then q.update dt else q)
  ∧ p.update dt = Projectile.wallCollide (Projectile.groundCollide (p.integrate dt))
  ∧ (p.integrate dt).velocity.x = p.velocity.x
  ∧ (p.integrate dt).velocity.y = p.velocity.y - GRAVITY * dt
  ∧ (p.integrate dt).position.x = p.position.x + (p.integrate dt).velocity.x * dt
  ∧ (p.integrate dt).position.y = p.position.y + (p.integrate dt).velocity.y * dt
  ∧ (p.integrate dt).timeAlive = p.timeAlive + dt
  ∧ (p.integrate dt).active = p.active
  ∧ (p.integrate dt).radius = p.radius := by
  refine ⟨rfl, ?_, rfl, rfl, rfl, rfl, rfl, rfl, rfl⟩
  simp only [Projectile.update, Projectile.integrate, Projectile.groundCollide,
    Projectile.wallCollide]

/-- C2: in the ground-collision phase, a projectile whose position.y is
at most its radius has position.y set to exactly the radius and both
velocity components halved; if the halved velocity has magnitude below 1
(squared form) the projectile is deactivated with the halved velocity
kept, otherwise velocity.y becomes -(halved velocity.y) * 0.7, i.e.
-0.35 times its pre-ground-contact value, while velocity.x stays at half
its pre-ground-contact value. -/
theorem ground_collision_spec (q : Projectile ℚ) (h : q.position.y ≤ q.radius) :
    (q.groundCollide).position.y = q.radius
  ∧ (q.groundCollide).position.x = q.position.x
  ∧ (q.groundCollide).velocity.x = q.velocity.x * (1 / 2)
  ∧ (q.groundCollide).timeAlive = q.timeAlive
  ∧ (q.groundCollide).radius = q.radius
  ∧ ((q.velocity.x * (1 / 2)) ^ 2 + (q.velocity.y * (1 / 2)) ^ 2 < 1 →
        (q.groundCollide).active = false
      ∧ (q.groundCollide).velocity.y = q.velocity.y * (1 / 2))
  ∧ (¬ ((q.velocity.x * (1 / 2)) ^ 2 + (q.velocity.y * (1 / 2)) ^ 2 < 1) →
        (q.groundCollide).active = q.active
      ∧ (q.groundCollide).velocity.y = -(7 / 20) * q.velocity.y) := by
  by_cases h2 : (q.velocity.x * (1 / 2)) ^ 2 + (q.velocity.y * (1 / 2)) ^ 2 < 1
  · simp only [Projectile.groundCollide, if_pos h, if_pos h2]
    exact ⟨trivial, trivial, trivial, trivial, trivial,
      fun h3 => ⟨trivial, trivial⟩, fun h3 => absurd h2 h3⟩
  · simp only [Projectile.groundCollide, if_pos h, if_neg h2]
    exact ⟨trivial, trivial, trivial, trivial, trivial,
      fun h3 => absurd h3 h2, fun h3 => ⟨trivial, by ring⟩⟩

/-- Witness for C2 at a concrete grounded projectile in the bounce
branch: velocity (10, -20) halves to (5, -10), whose squared length 125
is not below 1, so the projectile stays active and bounces. -/
theorem ground_collision_spec_witness :
    qGround.position.y ≤ qGround.radius
  ∧ (qGround.groundCollide).active = qGround.active
  ∧ (qGround.groundCollide).velocity.y = -(7 / 20) * qGround.velocity.y :=
  ⟨by norm_num [qGround, Projectile.create],
   ((ground_collision_spec qGround (by norm_num [qGround, Projectile.create])).2.2.2.2.2.2
      (by norm_num [qGround, Projectile.create])).1,
   ((ground_collision_spec qGround (by norm_num [qGround, Projectile.create])).2.2.2.2.2.2
      (by norm_num [qGround, Projectile.create])).2⟩

/-- C3: in the wall-collision phase, a projectile with position.x at
least WINDOW_WIDTH - radius (WINDOW_WIDTH = 800) has position.x clamped
to exactly WINDOW_WIDTH - radius and velocity.x multiplied by -0.7,
leaving every other field unchanged; and the wall phase is applied after
the ground phase unconditionally, so both may act in the same update. -/
theorem wall_collision_spec (q : Projectile ℚ) (h : q.position.x ≥ WINDOW_WIDTH - q.radius) :
    (WINDOW_WIDTH : ℚ) = 800
  ∧ (q.wallCollide).position.x = WINDOW_WIDTH - q.radius
  ∧ (q.wallCollide).velocity.x = q.velocity.x * (-(7 / 10))
  ∧ (q.wallCollide).position.y = q.position.y
  ∧ (q.wallCollide).velocity.y = q.velocity.y
  ∧ (q.wallCollide).active = q.active
  ∧ (q.wallCollide).timeAlive = q.timeAlive
  ∧ (q.wallCollide).radius = q.radius
  ∧ (∀ (dt : ℚ) (p : Projectile ℚ),
      p.update dt = Projectile.wallCollide (Projectile.groundCollide (p.integrate dt))) := by
  refine ⟨by norm_num [WINDOW_WIDTH], ?_⟩
  simp only [Projectile.wallCollide, if_pos h]
  exact ⟨trivial, trivial, trivial, trivial, trivial, trivial, trivial, fun dt p => by
    simp only [Projectile.update, Projectile.integrate, Projectile.groundCollide,
      Projectile.wallCollide]⟩

/-- Witness for C3 at the spec scenario: a projectile at
`position.x = 796 = boundaryWidth - radius + 1` is clamped to 795 and its
x velocity scaled by -0.7. -/
theorem wall_collision_spec_witness :
    qWall.position.x ≥ WINDOW_WIDTH - qWall.radius
  ∧ (qWall.wallCollide).position.x = WINDOW_WIDTH - qWall.radius
  ∧ (qWall.wallCollide).velocity.x = qWall.velocity.x * (-(7 / 10)) :=
  ⟨by norm_num [qWall, Projectile.create, WINDOW_WIDTH],
   (wall_collision_spec qWall
      (by norm_num [qWall, Projectile.create, WINDOW_WIDTH])).2.1,
   (wall_collision_spec qWall
      (by norm_num [qWall, Projectile.create, WINDOW_WIDTH])).2.2.1⟩


/-- A stale projectile with `timeAlive = 10.01`, still active. -/
def qOld : Projectile ℚ :=
  { position := ⟨0, 10⟩, velocity := ⟨0, 0⟩, radius := 5, active := true,
    timeAlive := 1001 / 100 }

/-- C4: `prune` removes exactly the projectiles with `active = false` or
`timeAlive > 10`; in particular a projectile with `timeAlive = 10.01` is
removed regardless of its `active` flag. -/
theorem prune_spec (ps : List (Projectile ℚ)) (p : Projectile ℚ) :
    (p ∈ prune ps ↔ p ∈ ps ∧ ¬ (p.active = false ∨ p.timeAlive > 10))
  ∧ (p.timeAlive = 1001 / 100 → p ∉ prune ps) := by
  constructor
  · simp [prune, List.mem_filter, not_or]
  · intro h hmem
    simp [prune, List.mem_filter, h] at hmem
    norm_num at hmem

/-- Witness for C4: the active projectile with `timeAlive = 10.01` is
removed by `prune`. -/
theorem prune_spec_witness : qOld ∉ prune [qOld] :=
  (prune_spec [qOld] qOld).2 (by norm_num [qOld])

/-- C5: `fireProjectile` is a pure function of the aim state, returning
a projectile at `cannonPosition + 40 * (cos radians, sin radians)` with
velocity `power * (cos radians, sin radians)` (radians computed from the
angle in degrees via the source `PI` constant), radius 5, active, with
`timeAlive = 0`; with angle 0 and power 50 the initial velocity is
exactly (50, 0). -/
theorem fire_spec (s : AimState ℝ) :
    fireProjectile s =
      { position := ⟨cannonPosition.x + 40 * Real.cos (s.cannonAngle * PI / 180),
                     cannonPosition.y + 40 * Real.sin (s.cannonAngle * PI / 180)⟩,
        velocity := ⟨s.cannonPower * Real.cos (s.cannonAngle * PI / 180),
                     s.cannonPower * Real.sin (s.cannonAngle * PI / 180)⟩,
        radius := 5, active := true, timeAlive := 0 }
  ∧ (fireProjectile ⟨0, 50⟩).velocity = ⟨50, 0⟩ := by
  refine ⟨rfl, ?_⟩
  simp [fireProjectile, Projectile.create]

/-- Each single adjust input keeps the angle in [0, 90] and the power in
[10, 100] when they were in range before. -/
theorem processKey_bounds (s : AimState ℚ) (k : InputKey)
    (h : 0 ≤ s.cannonAngle ∧ s.cannonAngle ≤ 90 ∧ 10 ≤ s.cannonPower ∧ s.cannonPower ≤ 100) :
    0 ≤ (processKey s k).cannonAngle ∧ (processKey s k).cannonAngle ≤ 90
  ∧ 10 ≤ (processKey s k).cannonPower ∧ (processKey s k).cannonPower ≤ 100 := by
  obtain ⟨h1, h2, h3, h4⟩ := h
  cases k with
  | up => exact ⟨le_min (by linarith) (by norm_num), min_le_right _ _, h3, h4⟩
  | down => exact ⟨le_max_right _ _, max_le (by linarith) (by norm_num), h3, h4⟩
  | right => exact ⟨h1, h2, le_min (by linarith) (by norm_num), min_le_right _ _⟩
  | left => exact ⟨h1, h2, le_max_right _ _, max_le (by linarith) (by norm_num)⟩

/-- Any sequence of adjust inputs preserves the angle and power ranges. -/
theorem processInputs_bounds (ks : List InputKey) (s : AimState ℚ)
    (h : 0 ≤ s.cannonAngle ∧ s.cannonAngle ≤ 90 ∧ 10 ≤ s.cannonPower ∧ s.cannonPower ≤ 100) :
    0 ≤ (processInputs s ks).cannonAngle ∧ (processInputs s ks).cannonAngle ≤ 90
  ∧ 10 ≤ (processInputs s ks).cannonPower ∧ (processInputs s ks).cannonPower ≤ 100 := by
  induction ks generalizing s with
  | nil => exact h
  | cons k ks ih => exact ih _ (processKey_bounds s k h)

/-- C6: starting from the defaults angle 45 and power 50, after any
sequence of adjust inputs (each of magnitude 1, silently clamped), the
angle lies in [0, 90] and the power lies in [10, 100]. -/
theorem aim_bounds (ks : List InputKey) :
    0 ≤ (processInputs (initialAim : AimState ℚ) ks).cannonAngle
  ∧ (processInputs (initialAim : AimState ℚ) ks).cannonAngle ≤ 90
  ∧ 10 ≤ (processInputs (initialAim : AimState ℚ) ks).cannonPower
  ∧ (processInputs (initialAim : AimState ℚ) ks).cannonPower ≤ 100 :=
  processInputs_bounds ks initialAim
    ⟨by norm_num [initialAim], by norm_num [initialAim],
     by norm_num [initialAim], by norm_num [initialAim]⟩


/-- The `insert` operation of the simulation: `projectiles.push_back`
(line 285), appending to the live collection. -/
def insertProjectile (ps : List (Projectile α)) (p : Projectile α) : List (Projectile α) :=
  ps ++ [p]

/-- A projectile with nonpositive radius: `update` never writes `radius`,
so the claimed unconditional invariant `radius > 0` cannot hold. -/
def pNegRadius : Projectile ℚ :=
  { position := ⟨10, 10⟩, velocity := ⟨0, 0⟩, radius := -1, active := true, timeAlive := 0 }

/-- An active projectile resting exactly on the ground with a small
residual velocity; reachable after a bounce, and `update 0` mutates it. -/
def pRest : Projectile ℚ := Projectile.create ⟨10, 5⟩ ⟨1/2, 0⟩ 5

/-- An in-flight projectile away from both boundaries. -/
def pFly : Projectile ℚ := Projectile.create ⟨100, 100⟩ ⟨3, 4⟩ 5

/-- A projectile at ground level with downward speed 1/2, below the
settle threshold. -/
def pSlow : Projectile ℚ := Projectile.create ⟨10, 5⟩ ⟨0, -1/2⟩ 5

/-- Counterexample to C7 as stated: with no precondition on the state,
the invariant `radius > 0` fails after an update, because `update`
leaves `radius` unchanged (here `radius = -1` before and after). -/
theorem update_invariants_cex : ¬ (0 < ((pNegRadius).update 1).radius) := by
  norm_num [Projectile.update, pNegRadius, GRAVITY, WINDOW_WIDTH]

/-- C7 (amended): `update` preserves `radius` (so `radius > 0` holds
after whenever it held before), and with no precondition the ground
clamp `position.y >= radius` and the wall clamp
`position.x <= WINDOW_WIDTH - radius` hold after any update. -/
theorem update_invariants (p : Projectile ℚ) (dt : ℚ) :
    (p.update dt).radius = p.radius
  ∧ (0 < p.radius → 0 < (p.update dt).radius)
  ∧ (p.update dt).radius ≤ (p.update dt).position.y
  ∧ (p.update dt).position.x ≤ WINDOW_WIDTH - (p.update dt).radius := by
  simp only [Projectile.update]
  split_ifs with h1 h2 h3 h4 h5 <;>
    refine ⟨rfl, fun h => h, ?_, ?_⟩ <;>
    dsimp only at * <;>
    linarith

/-- Witness for C7 at a concrete in-flight projectile with radius 5. -/
theorem update_invariants_witness :
    0 < ((pFly.update 1).radius)
  ∧ (pFly.update 1).radius ≤ (pFly.update 1).position.y
  ∧ (pFly.update 1).position.x ≤ WINDOW_WIDTH - (pFly.update 1).radius :=
  ⟨(update_invariants pFly 1).2.1 (by norm_num [pFly, Projectile.create]),
   (update_invariants pFly 1).2.2.1,
   (update_invariants pFly 1).2.2.2⟩

/-- Counterexample to C8 as stated: `update 0` is not a no-op for every
state; an active projectile resting on the ground (position.y = radius,
velocity (1/2, 0)) has its velocity halved and is deactivated by the
ground branch even with zero elapsed time. -/
theorem step_zero_cex : pRest.update 0 ≠ pRest := by
  norm_num [Projectile.update, Projectile.create, pRest, GRAVITY, WINDOW_WIDTH,
    Projectile.mk.injEq, Vec2.mk.injEq]

/-- `update 0` is the identity on any projectile strictly away from the
ground and wall boundaries. -/
theorem update_zero_of_no_contact (p : Projectile α)
    (h1 : p.radius < p.position.y) (h2 : p.position.x < WINDOW_WIDTH - p.radius) :
    p.update 0 = p := by
  obtain ⟨⟨px, py⟩, ⟨vx, vy⟩, r, a, t⟩ := p
  simp only at h1 h2
  have hgc : ¬ (py + (vy - GRAVITY * 0) * 0 ≤ r) := by
    simp only [mul_zero, add_zero]
    exact not_le.mpr h1
  have hwc : ¬ (px + vx * 0 ≥ WINDOW_WIDTH - r) := by
    simp only [mul_zero, add_zero]
    exact not_le.mpr h2
  simp only [Projectile.update, if_neg hgc, if_neg hwc]
  simp

/-- C8 (amended): `update 0` leaves position, velocity, timeAlive and
active unchanged for every projectile strictly away from the ground and
wall clamps (it is not a no-op on a projectile resting on a boundary);
in particular the projectile fired from the default aim (angle 45,
power 50) keeps exactly its spawn position under `update 0`. -/
theorem update_zero_noop (p : Projectile ℚ)
    (h1 : p.radius < p.position.y) (h2 : p.position.x < WINDOW_WIDTH - p.radius) :
    p.update 0 = p
  ∧ ((fireProjectile initialAim).update 0).position = (fireProjectile initialAim).position := by
  refine ⟨update_zero_of_no_contact p h1 h2, ?_⟩
  have hy : (fireProjectile initialAim).radius < (fireProjectile initialAim).position.y := by
    simp only [fireProjectile, Projectile.create, cannonPosition, initialAim]
    nlinarith [Real.neg_one_le_sin ((45:ℝ) * PI / 180)]
  have hx : (fireProjectile initialAim).position.x
      < WINDOW_WIDTH - (fireProjectile initialAim).radius := by
    simp only [fireProjectile, Projectile.create, cannonPosition, initialAim, WINDOW_WIDTH]
    nlinarith [Real.cos_le_one ((45:ℝ) * PI / 180)]
  rw [update_zero_of_no_contact (fireProjectile initialAim) hy hx]

/-- Witness for C8 at a concrete in-flight projectile. -/
theorem update_zero_noop_witness :
    pFly.update 0 = pFly
  ∧ ((fireProjectile initialAim).update 0).position = (fireProjectile initialAim).position :=
  update_zero_noop pFly (by norm_num [pFly, Projectile.create])
    (by norm_num [pFly, Projectile.create, WINDOW_WIDTH])

/-- Counterexample to C9 as stated: at the positive deltaTime 1, the
projectile at ground level with downward speed 1/2 (below the settle
threshold 1.0) stays active, because gravity over a large step raises
the post-damping speed above 1 and the bounce branch is taken. -/
theorem settle_cex :
    pSlow.position.y = pSlow.radius
  ∧ pSlow.velocity.y < 0
  ∧ pSlow.velocity.x ^ 2 + pSlow.velocity.y ^ 2 < 1
  ∧ (0:ℚ) < 1
  ∧ (pSlow.update 1).active = true := by
  norm_num [Projectile.update, Projectile.create, pSlow, GRAVITY, WINDOW_WIDTH]

/-- C9 (amended): for every deltaTime with 0 < dt <= 1/10, a projectile
at position.y exactly equal to its radius with downward velocity of
magnitude strictly below the settle threshold 1.0 (e.g. speed 0.5) is
inactive after one update. -/
theorem settle_small_dt (p : Projectile ℚ) (dt : ℚ)
    (hy : p.position.y = p.radius) (hvy : p.velocity.y < 0)
    (hspeed : p.velocity.x ^ 2 + p.velocity.y ^ 2 < 1)
    (hdt : 0 < dt) (hdt10 : dt ≤ 1 / 10) :
    (p.update dt).active = false := by
  obtain ⟨⟨px, py⟩, ⟨vx, vy⟩, r, a, t⟩ := p
  simp only at hy hvy hspeed
  have hG : (GRAVITY : ℚ) = 981 / 100 := rfl
  have hgd : 0 < GRAVITY * dt := by rw [hG]; nlinarith
  have hgdb : GRAVITY * dt ≤ 981 / 1000 := by rw [hG]; linarith
  have hvy2 : vy - GRAVITY * dt < 0 := by linarith
  have hgc : py + (vy - GRAVITY * dt) * dt ≤ r := by
    have hneg := mul_neg_of_neg_of_pos hvy2 hdt
    linarith
  have hvyb : -1 < vy := by nlinarith [sq_nonneg vx, sq_nonneg (vy + 1)]
  have h1 : 0 < (1 + vy) * (GRAVITY * dt) := mul_pos (by linarith) hgd
  have h2 : (GRAVITY * dt) ^ 2 ≤ (981 / 1000) ^ 2 := by nlinarith [hgd, hgdb]
  have h3 : -(2 : ℚ) * vy * (GRAVITY * dt) < 2 * (981 / 1000) := by nlinarith [h1, hgdb]
  have hsp : (vx * (1 / 2)) ^ 2 + ((vy - GRAVITY * dt) * (1 / 2)) ^ 2 < 1 := by
    nlinarith [hspeed, h2, h3]
  simp only [Projectile.update, if_pos hgc, if_pos hsp]
  split_ifs <;> rfl

/-- Witness for C9 at the concrete slow grounded projectile and the
frame time 1/100. -/
theorem settle_small_dt_witness : (pSlow.update (1 / 100)).active = false :=
  settle_small_dt pSlow (1 / 100)
    (by norm_num [pSlow, Projectile.create])
    (by norm_num [pSlow, Projectile.create])
    (by norm_num [pSlow, Projectile.create])
    (by norm_num) (by norm_num)

/-- C10: the active flag is monotone and settles only via the ground:
`update` never turns an inactive projectile active; an active projectile
deactivated by `update` was in ground contact after integration with
halved speed below 1; the wall phase never changes the flag; the frame
loop updates exactly the active projectiles; `insert` only appends; and
`prune` only removes entries. -/
theorem active_transition (p : Projectile ℚ) (dt : ℚ) (ps : List (Projectile ℚ))
    (q : Projectile ℚ) :
    ((p.update dt).active = true → p.active = true)
  ∧ (p.active = true → (p.update dt).active = false →
        (p.integrate dt).position.y ≤ p.radius
      ∧ ((p.integrate dt).velocity.x * (1 / 2)) ^ 2
          + ((p.integrate dt).velocity.y * (1 / 2)) ^ 2 < 1)
  ∧ ((p.wallCollide).active = p.active)
  ∧ stepAll dt ps = ps.map (fun r => if r.active then r.update dt else r)
  ∧ insertProjectile ps q = ps ++ [q]
  ∧ prune ps ⊆ ps := by
  refine ⟨?_, ?_, ?_, rfl, rfl, fun a ha => List.mem_of_mem_filter ha⟩
  · simp only [Projectile.update, Projectile.integrate]
    split_ifs <;> first | (intro h; exact h) | (intro h; exact absurd h (by simp))
  · simp only [Projectile.update, Projectile.integrate]
    split_ifs with h1 h2 h3 <;> intro ha hf <;>
      first
        | exact ⟨h1, h2⟩
        | exact absurd hf (by simp [ha])
  · simp only [Projectile.wallCollide]
    split_ifs <;> rfl

/-- Witness for C10 at a concrete projectile and frame time. -/
theorem active_transition_witness :
    (pFly.update 1).active = true → pFly.active = true :=
  (active_transition pFly 1 [] pFly).1

end Canonz
